import Mathlib

/-!
Verification development for the nylabank digital-banking service.

The definitions below are a shallow embedding of the Python source:

* `app/api/v1/transactions.py` — deposit / withdraw / transfer /
  reverse_transaction handlers and `generate_reference_number`;
* `app/schemas/transaction.py`  — the pydantic validators on
  `TransactionCreate`;
* `app/api/v1/users.py` and `app/crud/users.py` — OTP issuance and the
  registration / login flow;
* `app/api/v1/accounts.py` and `app/crud/base_crud.py` — the paginated
  list endpoints and the generic filter layer.

Monetary amounts (`Decimal` in the source) are modelled as `ℚ`; database
tables keyed by generated unique ids are modelled as `Nat → Option row`
maps; strings produced by `random.choices` are modelled by an explicit
list of draws from `Fin 36`; the reference-number strings themselves are
modelled as `List Char`.  Each operation is a pure function from the bank
state to `Except error (state × transaction)`: the handlers raise
`HTTPException` (or a pydantic `ValueError` caught by the generic handler)
before any write on every error path, so an error result carries no state
change.
-/

namespace NylaBank

/-- Python str.lower, as used by `generate_reference_number` and `login`. -/
def pyLower (s : String) : String := String.mk (s.data.map Char.toLower)

/-- Python truthiness defaulting `x or "dflt"` on an optional string. -/
def pyStrOr (s : Option String) (dflt : String) : String :=
  match s with
  | none => dflt
  | some v => if v = "" then dflt else v

/-- UserRole from app/models/user.py. -/
inductive UserRole
  | customer
  | admin
deriving DecidableEq, Repr

/-- AccountStatus from app/models/account.py. -/
inductive AccountStatus
  | active
  | frozen
  | closed
deriving DecidableEq, Repr

/-- TransactionType from app/models/transaction.py. -/
inductive TransactionType
  | deposit
  | withdrawal
  | transfer
  | fee
deriving DecidableEq, Repr

/-- TransactionStatus from app/models/transaction.py. -/
inductive TransactionStatus
  | pending
  | completed
  | failed
  | reversed
deriving DecidableEq, Repr

/-- User row (app/models/user.py), restricted to the fields the verified
flows read. -/
structure User where
  id : Nat
  email : String
  hashed_password : String
  role : UserRole
  is_active : Bool
deriving DecidableEq, Repr

/-- Account row (app/models/account.py), restricted to the fields the
transaction endpoints read. -/
structure Account where
  id : Nat
  user_id : Nat
  balance : ℚ
  currency : String
  status : AccountStatus
deriving DecidableEq, Repr

/-- Transaction row (app/models/transaction.py).  The JSON
`transaction_metadata` column is populated by the code only with the pair
(reversed_transaction_id, reason), which is how it is modelled here. -/
structure Transaction where
  id : Nat
  from_account_id : Option Nat
  to_account_id : Option Nat
  transaction_type : TransactionType
  amount : ℚ
  currency : String
  description : String
  reference_number : List Char
  status : TransactionStatus
  balance_after : Option ℚ
  transaction_metadata : Option (Nat × String)
deriving DecidableEq, Repr

/-- The persisted bank state: the accounts and transactions tables, keyed
by their generated unique ids. -/
structure BankState where
  accounts : Nat → Option Account
  transactions : Nat → Option Transaction

/-- The error outcomes of the transaction endpoints.  Each constructor is
one `raise HTTPException` site (or, for `validationError`, the pydantic
`ValueError` raised while building a `TransactionCreate`, surfaced by the
generic `except Exception` handler as a 500). -/
inductive ApiError
  | notFound
  | accessDenied
  | accountNotActive
  | insufficientBalance
  | currencyMismatch
  | adminOnly
  | notCompleted
  | validationError (msg : String)
deriving DecidableEq, Repr

/-- The 36-character pool `string.ascii_uppercase + string.digits` used by
`generate_reference_number`. -/
def base36Alphabet : List Char := "ABCDEFGHIJKLMNOPQRSTUVWXYZ0123456789".toList

/-- One random draw from the pool. -/
def char36 (i : Fin 36) : Char := base36Alphabet.getD i.val 'A'

/-- The transaction-type-to-head mapping inside
`generate_reference_number` (transactions.py lines 38-43). -/
def refHeadFor (transaction_type : String) : List Char :=
  if pyLower transaction_type = "deposit" then "DEP".toList
  else if pyLower transaction_type = "withdrawal" then "WTH".toList
  else if pyLower transaction_type = "transfer" then "TRF".toList
  else if pyLower transaction_type = "reversal" then "REV".toList
  else "TXN".toList

/-- generate_reference_number (transactions.py lines 33-45).  The source
draws 12 characters with `random.choices(pool, k=12)`; the draws are made
explicit as the `draws` argument (callers always supply 12 of them). -/
def generate_reference_number (transaction_type : String)
    (draws : List (Fin 36)) : List Char :=
  refHeadFor transaction_type ++ draws.map char36

/-- The payload of `TransactionCreate` (app/schemas/transaction.py). -/
structure TransactionCreate where
  from_account_id : Option Nat
  to_account_id : Option Nat
  transaction_type : TransactionType
  amount : ℚ
  currency : String
  description : String
  reference_number : List Char
  status : TransactionStatus
  balance_after : Option ℚ
  transaction_metadata : Option (Nat × String)
deriving DecidableEq, Repr

/-- The pydantic validators on `TransactionCreate`
(app/schemas/transaction.py lines 26-36): `validate_amount` rejects
amounts that are not strictly positive, `validate_reference_number`
rejects references shorter than 6 characters and upper-cases the value.
No validator constrains the number of fractional digits of the amount. -/
def TransactionCreate.validate (t : TransactionCreate) :
    Except ApiError TransactionCreate :=
  if t.amount ≤ 0 then
    .error (.validationError "Amount must be greater than 0")
  else if t.reference_number.length < 6 then
    .error (.validationError "Reference number must be at least 6 characters long")
  else
    .ok { t with reference_number := t.reference_number.map Char.toUpper }

/-- transaction_crud.create: the insert commits a new row whose generated
id is the map key. -/
def insertTransaction (st : BankState) (txId : Nat) (t : TransactionCreate) :
    BankState × Transaction :=
  let tx : Transaction :=
    { id := txId
      from_account_id := t.from_account_id
      to_account_id := t.to_account_id
      transaction_type := t.transaction_type
      amount := t.amount
      currency := t.currency
      description := t.description
      reference_number := t.reference_number
      status := t.status
      balance_after := t.balance_after
      transaction_metadata := t.transaction_metadata }
  ({ st with
      transactions := fun i => if i = txId then some tx else st.transactions i },
   tx)

/-- account_crud.update(db_obj=account, obj_in=(balance := b)): writes the
new balance on the row the handler loaded at key `aid`
(app/crud/base_crud.py lines 374-398). -/
def updateAccountBalance (st : BankState) (aid : Nat) (b : ℚ) : BankState :=
  { st with
      accounts := fun i =>
        if i = aid then (st.accounts i).map (fun a => { a with balance := b })
        else st.accounts i }

/-- transaction_crud.update(db_obj=tx, obj_in=(status := s)) on the row
loaded at key `txId`. -/
def updateTransactionStatus (st : BankState) (txId : Nat)
    (s : TransactionStatus) : BankState :=
  { st with
      transactions := fun i =>
        if i = txId then (st.transactions i).map (fun t => { t with status := s })
        else st.transactions i }

/-- transaction_crud.update(db_obj=tx, obj_in=(balance_after := b)) on the
row loaded at key `txId`. -/
def updateTransactionBalanceAfter (st : BankState) (txId : Nat) (b : ℚ) :
    BankState :=
  { st with
      transactions := fun i =>
        if i = txId then
          (st.transactions i).map (fun t => { t with balance_after := some b })
        else st.transactions i }

/-- DepositRequest (app/schemas/transaction.py lines 70-74): plain fields,
no validator of its own. -/
structure DepositRequest where
  account_id : Nat
  amount : ℚ
  description : Option String
deriving DecidableEq, Repr

/-- WithdrawRequest (app/schemas/transaction.py lines 76-80): plain
fields, no validator of its own. -/
structure WithdrawRequest where
  account_id : Nat
  amount : ℚ
  description : Option String
deriving DecidableEq, Repr

/-- TransferRequest (app/schemas/transaction.py lines 82-86). -/
structure TransferRequest where
  from_account_id : Nat
  to_account_id : Nat
  amount : ℚ
  description : Option String
deriving DecidableEq, Repr

/-- TransactionRouter.deposit (transactions.py lines 107-196).  `draws`
stands for the random character draws, `txId` for the id generated for the
inserted row. -/
def deposit (st : BankState) (current_user : User) (deposit_in : DepositRequest)
    (draws : List (Fin 36)) (txId : Nat) :
    Except ApiError (BankState × Transaction) :=
  match st.accounts deposit_in.account_id with
  | none => .error .notFound
  | some account =>
    if current_user.role = UserRole.customer ∧ account.user_id ≠ current_user.id then
      .error .accessDenied
    else if account.status ≠ AccountStatus.active then
      .error .accountNotActive
    else
      let reference_number := generate_reference_number "deposit" draws
      let new_balance := account.balance + deposit_in.amount
      let transaction_data : TransactionCreate :=
        { from_account_id := none
          to_account_id := some account.id
          transaction_type := TransactionType.deposit
          amount := deposit_in.amount
          currency := account.currency
          description := pyStrOr deposit_in.description "Deposit"
          reference_number := reference_number
          status := TransactionStatus.completed
          balance_after := some new_balance
          transaction_metadata := none }
      match transaction_data.validate with
      | .error e => .error e
      | .ok td =>
        let p := insertTransaction st txId td
        let st2 := updateAccountBalance p.1 deposit_in.account_id new_balance
        .ok (st2, p.2)

/-- TransactionRouter.withdraw (transactions.py lines 198-294). -/
def withdraw (st : BankState) (current_user : User) (withdraw_in : WithdrawRequest)
    (draws : List (Fin 36)) (txId : Nat) :
    Except ApiError (BankState × Transaction) :=
  match st.accounts withdraw_in.account_id with
  | none => .error .notFound
  | some account =>
    if current_user.role = UserRole.customer ∧ account.user_id ≠ current_user.id then
      .error .accessDenied
    else if account.status ≠ AccountStatus.active then
      .error .accountNotActive
    else if account.balance < withdraw_in.amount then
      .error .insufficientBalance
    else
      let reference_number := generate_reference_number "withdrawal" draws
      let new_balance := account.balance - withdraw_in.amount
      let transaction_data : TransactionCreate :=
        { from_account_id := some account.id
          to_account_id := none
          transaction_type := TransactionType.withdrawal
          amount := withdraw_in.amount
          currency := account.currency
          description := pyStrOr withdraw_in.description "Withdrawal"
          reference_number := reference_number
          status := TransactionStatus.completed
          balance_after := some new_balance
          transaction_metadata := none }
      match transaction_data.validate with
      | .error e => .error e
      | .ok td =>
        let p := insertTransaction st txId td
        let st2 := updateAccountBalance p.1 withdraw_in.account_id new_balance
        .ok (st2, p.2)

/-- TransactionRouter.transfer (transactions.py lines 296-429).  Both
account rows are loaded from the initial state, both new balances are
computed before either write, then the two balance writes are committed
one after the other (the source first). -/
def transfer (st : BankState) (current_user : User) (transfer_in : TransferRequest)
    (draws : List (Fin 36)) (txId : Nat) :
    Except ApiError (BankState × Transaction) :=
  match st.accounts transfer_in.from_account_id with
  | none => .error .notFound
  | some from_account =>
    match st.accounts transfer_in.to_account_id with
    | none => .error .notFound
    | some to_account =>
      if current_user.role = UserRole.customer ∧ from_account.user_id ≠ current_user.id then
        .error .accessDenied
      else if from_account.status ≠ AccountStatus.active ∨ to_account.status ≠ AccountStatus.active then
        .error .accountNotActive
      else if from_account.balance < transfer_in.amount then
        .error .insufficientBalance
      else if from_account.currency ≠ to_account.currency then
        .error .currencyMismatch
      else
        let reference_number := generate_reference_number "transfer" draws
        let from_new_balance := from_account.balance - transfer_in.amount
        let to_new_balance := to_account.balance + transfer_in.amount
        let transaction_data : TransactionCreate :=
          { from_account_id := some from_account.id
            to_account_id := some to_account.id
            transaction_type := TransactionType.transfer
            amount := transfer_in.amount
            currency := from_account.currency
            description := pyStrOr transfer_in.description "Transfer"
            reference_number := reference_number
            status := TransactionStatus.completed
            balance_after := some from_new_balance
            transaction_metadata := none }
        match transaction_data.validate with
        | .error e => .error e
        | .ok td =>
          let p := insertTransaction st txId td
          let st2 := updateAccountBalance p.1 transfer_in.from_account_id from_new_balance
          let st3 := updateAccountBalance st2 transfer_in.to_account_id to_new_balance
          .ok (st3, p.2)

/-- The credit leg of reverse_transaction (transactions.py lines
649-663): when the original had a source account, credit it back and
record `balance_after` for that leg on the reversal row (both in the
returned state and on the returned object). -/
def applyFromLeg (st : BankState) (rtx : Transaction) (newTxId : Nat)
    (from_account_id : Option Nat) (amount : ℚ) : BankState × Transaction :=
  match from_account_id with
  | some fid =>
    match st.accounts fid with
    | some from_account =>
      let nb := from_account.balance + amount
      let sta := updateTransactionBalanceAfter st newTxId nb
      let stb := updateAccountBalance sta fid nb
      (stb, { rtx with balance_after := some nb })
    | none => (st, rtx)
  | none => (st, rtx)

/-- The debit leg of reverse_transaction (transactions.py lines 665-673):
when the original had a destination account, debit it, with no
sufficient-funds check and no balance_after recorded for this leg. -/
def applyToLeg (st : BankState) (to_account_id : Option Nat) (amount : ℚ) :
    BankState :=
  match to_account_id with
  | some tid =>
    match st.accounts tid with
    | some to_account =>
      updateAccountBalance st tid (to_account.balance - amount)
    | none => st
  | none => st

/-- TransactionRouter.reverse_transaction (transactions.py lines 603-693).
After the admin/status guards, the handler inserts the swapped reversal
row, credits the original source account (recording `balance_after` on
the reversal row for that leg only), debits the original destination
account with no sufficient-funds check, and finally marks the original
row REVERSED. -/
def reverse_transaction (st : BankState) (current_user : User)
    (transaction_id : Nat) (reason : String) (draws : List (Fin 36))
    (newTxId : Nat) : Except ApiError (BankState × Transaction) :=
  if current_user.role ≠ UserRole.admin then .error .adminOnly
  else
    match st.transactions transaction_id with
    | none => .error .notFound
    | some original =>
      if original.status ≠ TransactionStatus.completed then .error .notCompleted
      else
        let reversal_data : TransactionCreate :=
          { from_account_id := original.to_account_id
            to_account_id := original.from_account_id
            transaction_type := original.transaction_type
            amount := original.amount
            currency := original.currency
            description := "Reversal: " ++ original.description
            reference_number := generate_reference_number "reversal" draws
            status := TransactionStatus.completed
            balance_after := none
            transaction_metadata := some (original.id, reason) }
        match reversal_data.validate with
        | .error e => .error e
        | .ok td =>
          let p := insertTransaction st newTxId td
          let q := applyFromLeg p.1 p.2 newTxId original.from_account_id original.amount
          let st3 := applyToLeg q.1 original.to_account_id original.amount
          let st4 := updateTransactionStatus st3 transaction_id TransactionStatus.reversed
          .ok (st4, q.2)

/-- Whether an endpoint call succeeded. -/
def exceptIsOk : Except ApiError (BankState × Transaction) → Bool
  | .ok _ => true
  | .error _ => false

/-- The state persisted by a deposit call: unchanged on any error. -/
def runDeposit (st : BankState) (u : User) (r : DepositRequest)
    (draws : List (Fin 36)) (txId : Nat) : BankState :=
  match deposit st u r draws txId with
  | .ok p => p.1
  | .error _ => st

/-- The state persisted by a withdraw call: unchanged on any error. -/
def runWithdraw (st : BankState) (u : User) (r : WithdrawRequest)
    (draws : List (Fin 36)) (txId : Nat) : BankState :=
  match withdraw st u r draws txId with
  | .ok p => p.1
  | .error _ => st

/-- The state persisted by a reverse call: unchanged on any error. -/
def runReverse (st : BankState) (u : User) (txId : Nat) (reason : String)
    (draws : List (Fin 36)) (newTxId : Nat) : BankState :=
  match reverse_transaction st u txId reason draws newTxId with
  | .ok p => p.1
  | .error _ => st

/-- The pagination envelope returned by every list endpoint
(accounts.py, transactions.py, admin.py). -/
structure PaginatedList (α : Type) where
  total_count : Int
  page : Int
  per_page : Int
  total_pages : Int
  data : List α
deriving Repr

/-- The page validation shared verbatim by all six list endpoints
(accounts.py lines 116-117 and the identical lines in transactions.py and
admin.py): pages below 1 become 1. -/
def validatedPage (page : Int) : Int := if page < 1 then 1 else page

/-- The per_page validation shared verbatim by all six list endpoints
(accounts.py lines 118-119 and the identical lines in transactions.py and
admin.py): any value outside 1..50 is reset to the default 10. -/
def validatedPerPage (per_page : Int) : Int :=
  if per_page < 1 ∨ per_page > 50 then 10 else per_page

/-- BaseCRUD.filter on the accounts table (app/crud/base_crud.py lines
98-157): the limit is capped at 20, the rows matching the equality filter
are paged with offset/limit, and total_count counts every matching row. -/
def crudFilterAccounts (accounts : List Account) (user_id : Nat)
    (limit skip : Int) : Int × List Account :=
  let limit := if limit > 20 then 20 else limit
  let matching := accounts.filter (fun a => a.user_id == user_id)
  (matching.length, (matching.drop skip.toNat).take limit.toNat)

/-- BaseCRUD.all on the accounts table (app/crud/base_crud.py lines
206-246): the limit is capped at 100 and total_count counts every row. -/
def crudAllAccounts (accounts : List Account) (limit skip : Int) :
    Int × List Account :=
  let limit := if limit > 100 then 100 else limit
  (accounts.length, (accounts.drop skip.toNat).take limit.toNat)

/-- AccountRouter.list_accounts (accounts.py lines 106-151).  Customers
see their own accounts through BaseCRUD.filter, admins see all accounts
through BaseCRUD.all; `Int.fdiv` is Python floor division. -/
def list_accounts (accounts : List Account) (current_user : User)
    (page per_page : Int) : PaginatedList Account :=
  let vpage := validatedPage page
  let vper := validatedPerPage per_page
  let skip := (vpage - 1) * vper
  let res :=
    if current_user.role = UserRole.customer then
      crudFilterAccounts accounts current_user.id vper skip
    else
      crudAllAccounts accounts vper skip
  { total_count := res.1
    page := vpage
    per_page := vper
    total_pages := Int.fdiv (res.1 + vper - 1) vper
    data := res.2 }

/-- OTP row (app/models/otp.py). -/
structure OtpRec where
  id : Nat
  email : String
  otp_code : String
  expires_on : Nat
  is_expired : Bool
deriving DecidableEq, Repr

/-- otp_crud.get_by(filters=(email := e)): first row matching the email
(app/crud/base_crud.py lines 65-96). -/
def otp_get_by (store : List OtpRec) (email : String) : Option OtpRec :=
  store.find? (fun o => o.email == email)

/-- otp_crud.delete(id=oid) (app/crud/base_crud.py lines 408-420). -/
def otp_delete (store : List OtpRec) (oid : Nat) : List OtpRec :=
  store.filter (fun o => !(o.id == oid))

/-- The OTP issuance performed by both UserRouter.send_otp (users.py lines
217-269) and UserRouter.request_password_reset (users.py lines 277-319):
the OTP found for the email, if any, is deleted before the freshly
generated code is inserted.  The two handlers differ only in the expiry
they pass and the email they send. -/
def issue_otp (store : List OtpRec) (email otp_code : String)
    (expires_on newId : Nat) : List OtpRec :=
  let store1 :=
    match otp_get_by store email with
    | some otp => otp_delete store otp.id
    | none => store
  store1 ++ [{ id := newId, email := email, otp_code := otp_code,
               expires_on := expires_on, is_expired := false }]

/-- Outcome of an OTP confirmation attempt. -/
inductive OtpConfirmResult
  | otpMissing
  | expired
  | incorrect
  | confirmed
deriving DecidableEq, Repr

/-- The OTP acceptance check shared by UserRouter.confirm_registration
(users.py lines 177-191) and UserRouter.confirm_password_reset (users.py
lines 333-348): look up the row by email, reject when missing, flagged
expired or past expiry, or when the stored code differs. -/
def confirm_otp (store : List OtpRec) (email otp_code : String) (now : Nat) :
    OtpConfirmResult :=
  match otp_get_by store email with
  | none => .otpMissing
  | some otp =>
    if otp.is_expired ∨ otp.expires_on < now then .expired
    else if otp.otp_code ≠ otp_code then .incorrect
    else .confirmed

/-- At most one stored OTP row per email. -/
def atMostOneOtpPerEmail (store : List OtpRec) : Prop :=
  ∀ email : String, (store.filter (fun o => o.email == email)).length ≤ 1

/-- The users table. -/
structure UsersDb where
  users : List User
deriving DecidableEq, Repr

/-- CRUDUser.get_by_email (app/crud/users.py lines 11-14). -/
def get_by_email (db : UsersDb) (email : String) : Option User :=
  db.users.find? (fun u => u.email == email)

/-- CRUDUser.create (app/crud/users.py lines 16-41): the new row is
committed with `is_active=True` and the default customer role.  `hash`
stands for the external `get_password_hash`. -/
def user_create (hash : String → String) (db : UsersDb) (newId : Nat)
    (email password : String) : UsersDb × User :=
  let u : User :=
    { id := newId
      email := email
      hashed_password := hash password
      role := UserRole.customer
      is_active := true }
  ({ users := db.users ++ [u] }, u)

/-- CRUDUser.authenticate (app/crud/users.py lines 43-55).  `verify`
stands for the external `verify_password`. -/
def authenticate (verify : String → String → Bool) (db : UsersDb)
    (email password : String) : Option User :=
  match get_by_email db email with
  | none => none
  | some user =>
    if verify password user.hashed_password then some user else none

/-- Outcome of UserRouter.login, one constructor per return path. -/
inductive LoginResult
  | userMissing
  | badCredentials
  | inactive
  | token (user_id : Nat)
deriving DecidableEq, Repr

/-- UserRouter.login (users.py lines 142-166): look the user up by the
submitted username, authenticate against the lower-cased username, reject
inactive users with the 400 inactive-account error, otherwise issue a
token for the user id. -/
def login (verify : String → String → Bool) (db : UsersDb)
    (username password : String) : LoginResult :=
  match get_by_email db username with
  | none => .userMissing
  | some _ =>
    match authenticate verify db (pyLower username) password with
    | none => .badCredentials
    | some user =>
      if ¬ user.is_active then .inactive
      else .token user.id

/-- Fixture: a customer who owns the test accounts. -/
def ownerUser : User :=
  { id := 7, email := "owner@example.com", hashed_password := "h"
    role := UserRole.customer, is_active := true }

/-- Fixture: an admin. -/
def adminUser : User :=
  { id := 9, email := "admin@example.com", hashed_password := "h"
    role := UserRole.admin, is_active := true }

/-- Fixture: account 1 with balance 20.00 USD. -/
def acct20 : Account :=
  { id := 1, user_id := 7, balance := 20, currency := "USD"
    status := AccountStatus.active }

/-- Fixture: account 1 with balance 100.00 USD. -/
def acct100 : Account :=
  { id := 1, user_id := 7, balance := 100, currency := "USD"
    status := AccountStatus.active }

/-- Fixture: account 2 with balance 30.00 USD. -/
def acct30 : Account :=
  { id := 2, user_id := 7, balance := 30, currency := "USD"
    status := AccountStatus.active }

/-- Fixture: a fixed sequence of 12 random draws. -/
def draws12 : List (Fin 36) := List.replicate 12 0

/-- Fixture: a bank state holding only account 1 at balance 20.00. -/
def stBal20 : BankState :=
  { accounts := fun i => if i = 1 then some acct20 else none
    transactions := fun _ => none }

/-- Fixture: a bank state holding only account 1 at balance 100.00. -/
def stBal100 : BankState :=
  { accounts := fun i => if i = 1 then some acct100 else none
    transactions := fun _ => none }

/-- Fixture: a completed 100.00 transfer from account 1 to account 2. -/
def txTransfer100 : Transaction :=
  { id := 5, from_account_id := some 1, to_account_id := some 2
    transaction_type := TransactionType.transfer, amount := 100
    currency := "USD", description := "rent"
    reference_number := "TRF000000000000".toList
    status := TransactionStatus.completed, balance_after := some 0
    transaction_metadata := none }

/-- Fixture: accounts 1 (balance 100.00) and 2 (balance 30.00) plus the
completed transfer, ready to be reversed.  Account 2 holds less than the
transfer amount, so the reversal debit drives it negative. -/
def stReversible : BankState :=
  { accounts := fun i =>
      if i = 1 then some acct100 else if i = 2 then some acct30 else none
    transactions := fun i => if i = 5 then some txTransfer100 else none }

/-- Fixture: a stored OTP row for a@x.com with code 111111. -/
def otpRec1 : OtpRec :=
  { id := 1, email := "a@x.com", otp_code := "111111",
    expires_on := 100, is_expired := false }

/-- Fixture: an empty users table. -/
def emptyUsersDb : UsersDb := { users := [] }

/-- Two members of a list of length at most one coincide. -/
theorem eq_of_mem_mem_length_le_one {α : Type} {l : List α} {a b : α}
    (ha : a ∈ l) (hb : b ∈ l) (hl : l.length ≤ 1) : a = b := by
  match l with
  | [] => cases ha
  | [x] =>
    rw [List.mem_singleton] at ha hb
    rw [ha, hb]
  | x :: y :: t => simp at hl

/-- A successful deposit persists the COMPLETED transaction and the new
balance.  Shared backbone for the deposit theorems. -/
theorem deposit_success (st : BankState) (u : User) (req : DepositRequest)
    (draws : List (Fin 36)) (txId : Nat) (acc : Account)
    (hacc : st.accounts req.account_id = some acc)
    (hown : acc.user_id = u.id)
    (hactive : acc.status = AccountStatus.active)
    (hpos : 0 < req.amount)
    (hdraws : draws.length = 12) :
    ∃ st2 tx, deposit st u req draws txId = .ok (st2, tx) ∧
      tx.status = TransactionStatus.completed ∧
      tx.amount = req.amount ∧
      tx.balance_after = some (acc.balance + req.amount) ∧
      st2.transactions txId = some tx ∧
      (st2.accounts req.account_id).map Account.balance =
        some (acc.balance + req.amount) := by
  have hhead : refHeadFor "deposit" = "DEP".toList := by decide
  have hlen : ¬ ((generate_reference_number "deposit" draws).length < 6) := by
    simp [generate_reference_number, hhead, hdraws]
  unfold deposit
  rw [hacc]
  dsimp only
  rw [if_neg (by simp [hown]), if_neg (by simp [hactive])]
  unfold TransactionCreate.validate
  dsimp only
  rw [if_neg (not_le.mpr hpos), if_neg hlen]
  dsimp only
  refine ⟨_, _, rfl, rfl, rfl, rfl, ?_, ?_⟩
  · simp [insertTransaction, updateAccountBalance]
  · simp [insertTransaction, updateAccountBalance, hacc]

/-- C1: a withdrawal against an active account owned by the caller whose
balance is below the requested amount is rejected with the
insufficient-balance error, and nothing is persisted: the state (account
balances and transaction table) is unchanged. -/
theorem withdraw_insufficient_funds_rejected (st : BankState) (u : User)
    (req : WithdrawRequest) (draws : List (Fin 36)) (txId : Nat)
    (acc : Account)
    (hacc : st.accounts req.account_id = some acc)
    (hown : acc.user_id = u.id)
    (hactive : acc.status = AccountStatus.active)
    (hinsuf : acc.balance < req.amount) :
    withdraw st u req draws txId = .error ApiError.insufficientBalance ∧
    runWithdraw st u req draws txId = st := by
  have h1 : withdraw st u req draws txId = .error ApiError.insufficientBalance := by
    unfold withdraw
    rw [hacc]
    dsimp only
    rw [if_neg (by simp [hown]), if_neg (by simp [hactive]), if_pos hinsuf]
  refine ⟨h1, ?_⟩
  unfold runWithdraw
  rw [h1]

/-- Witness for C1: the spec scenario — balance 20.00, withdraw 50.00. -/
theorem withdraw_insufficient_funds_rejected_witness :
    withdraw stBal20 ownerUser
        { account_id := 1, amount := 50, description := none } draws12 3 =
      .error ApiError.insufficientBalance ∧
    runWithdraw stBal20 ownerUser
        { account_id := 1, amount := 50, description := none } draws12 3 =
      stBal20 :=
  withdraw_insufficient_funds_rejected _ _ _ _ _ acct20 (by decide) (by decide)
    (by decide) (by decide)

/-- C2: a deposit of a positive amount into an active account owned by
the caller persists a COMPLETED transaction whose balance_after is the
old balance plus the amount, and persists that same value as the account
balance. -/
theorem deposit_persists_completed_transaction (st : BankState) (u : User)
    (req : DepositRequest) (draws : List (Fin 36)) (txId : Nat)
    (acc : Account)
    (hacc : st.accounts req.account_id = some acc)
    (hown : acc.user_id = u.id)
    (hactive : acc.status = AccountStatus.active)
    (hpos : 0 < req.amount)
    (hdraws : draws.length = 12) :
    ∃ st2 tx, deposit st u req draws txId = .ok (st2, tx) ∧
      tx.status = TransactionStatus.completed ∧
      tx.amount = req.amount ∧
      tx.balance_after = some (acc.balance + req.amount) ∧
      st2.transactions txId = some tx ∧
      (st2.accounts req.account_id).map Account.balance =
        some (acc.balance + req.amount) :=
  deposit_success st u req draws txId acc hacc hown hactive hpos hdraws

/-- Witness for C2: the spec scenario — balance 100.00, deposit 50.00. -/
theorem deposit_persists_completed_transaction_witness :
    ∃ st2 tx, deposit stBal100 ownerUser
        { account_id := 1, amount := 50, description := none } draws12 3 =
      .ok (st2, tx) ∧
      tx.status = TransactionStatus.completed ∧
      tx.amount = 50 ∧
      tx.balance_after = some (acct100.balance + 50) ∧
      st2.transactions 3 = some tx ∧
      (st2.accounts 1).map Account.balance = some (acct100.balance + 50) :=
  deposit_persists_completed_transaction stBal100 ownerUser
    { account_id := 1, amount := 50, description := none } draws12 3 acct100
    (by decide) (by decide) (by decide) (by decide) (by decide)

/-- C10: a transfer whose source and destination are the same active
account, with sufficient balance, succeeds and leaves the account balance
at b + a: the debit write is overwritten by the credit write, both
computed from the same starting balance, so the self-transfer creates
money. -/
theorem self_transfer_creates_money (st : BankState) (u : User)
    (req : TransferRequest) (draws : List (Fin 36)) (txId : Nat)
    (acc : Account)
    (hsame : req.to_account_id = req.from_account_id)
    (hacc : st.accounts req.from_account_id = some acc)
    (hown : acc.user_id = u.id)
    (hactive : acc.status = AccountStatus.active)
    (hpos : 0 < req.amount)
    (hsuff : req.amount ≤ acc.balance)
    (hdraws : draws.length = 12) :
    ∃ st3 tx, transfer st u req draws txId = .ok (st3, tx) ∧
      tx.from_account_id = some acc.id ∧
      tx.to_account_id = some acc.id ∧
      tx.amount = req.amount ∧
      tx.status = TransactionStatus.completed ∧
      (st3.accounts req.from_account_id).map Account.balance =
        some (acc.balance + req.amount) := by
  have hhead : refHeadFor "transfer" = "TRF".toList := by decide
  have hlen : ¬ ((generate_reference_number "transfer" draws).length < 6) := by
    simp [generate_reference_number, hhead, hdraws]
  unfold transfer
  rw [hsame, hacc]
  dsimp only
  rw [if_neg (by simp [hown]), if_neg (by simp [hactive]),
    if_neg (not_lt.mpr hsuff), if_neg (by simp)]
  unfold TransactionCreate.validate
  dsimp only
  rw [if_neg (not_le.mpr hpos), if_neg hlen]
  dsimp only
  refine ⟨_, _, rfl, rfl, rfl, rfl, rfl, ?_⟩
  simp [insertTransaction, updateAccountBalance, hacc]

/-- Witness for C10: account 1 at 100.00, self-transfer of 50.00 — the
persisted balance becomes 150.00 instead of staying 100.00. -/
theorem self_transfer_creates_money_witness :
    ∃ st3 tx, transfer stBal100 ownerUser
        { from_account_id := 1, to_account_id := 1, amount := 50,
          description := none } draws12 3 = .ok (st3, tx) ∧
      tx.from_account_id = some acct100.id ∧
      tx.to_account_id = some acct100.id ∧
      tx.amount = 50 ∧
      tx.status = TransactionStatus.completed ∧
      (st3.accounts 1).map Account.balance = some (acct100.balance + 50) :=
  self_transfer_creates_money stBal100 ownerUser
    { from_account_id := 1, to_account_id := 1, amount := 50,
      description := none } draws12 3 acct100
    (by decide) (by decide) (by decide) (by decide) (by decide) (by decide)
    (by decide)

/-- C5 (amended): a deposit or withdrawal whose amount is not strictly
positive is always rejected (some error is raised before any write), and
nothing is persisted.  Amounts with more than 2 fractional digits carry
no such guarantee — see the counterexample. -/
theorem nonpositive_amounts_rejected (st : BankState) (u : User)
    (dreq : DepositRequest) (wreq : WithdrawRequest)
    (d1 d2 : List (Fin 36)) (t1 t2 : Nat)
    (hd : dreq.amount ≤ 0) (hw : wreq.amount ≤ 0) :
    (∃ e, deposit st u dreq d1 t1 = .error e) ∧
    runDeposit st u dreq d1 t1 = st ∧
    (∃ e, withdraw st u wreq d2 t2 = .error e) ∧
    runWithdraw st u wreq d2 t2 = st := by
  have hdep : ∃ e, deposit st u dreq d1 t1 = .error e := by
    unfold deposit
    cases hacc : st.accounts dreq.account_id with
    | none => exact ⟨_, rfl⟩
    | some account =>
      dsimp only
      by_cases h1 : u.role = UserRole.customer ∧ account.user_id ≠ u.id
      · rw [if_pos h1]; exact ⟨_, rfl⟩
      · rw [if_neg h1]
        by_cases h2 : account.status ≠ AccountStatus.active
        · rw [if_pos h2]; exact ⟨_, rfl⟩
        · rw [if_neg h2]
          unfold TransactionCreate.validate
          dsimp only
          rw [if_pos hd]
          exact ⟨_, rfl⟩
  have hwit : ∃ e, withdraw st u wreq d2 t2 = .error e := by
    unfold withdraw
    cases hacc : st.accounts wreq.account_id with
    | none => exact ⟨_, rfl⟩
    | some account =>
      dsimp only
      by_cases h1 : u.role = UserRole.customer ∧ account.user_id ≠ u.id
      · rw [if_pos h1]; exact ⟨_, rfl⟩
      · rw [if_neg h1]
        by_cases h2 : account.status ≠ AccountStatus.active
        · rw [if_pos h2]; exact ⟨_, rfl⟩
        · rw [if_neg h2]
          by_cases h3 : account.balance < wreq.amount
          · rw [if_pos h3]; exact ⟨_, rfl⟩
          · rw [if_neg h3]
            unfold TransactionCreate.validate
            dsimp only
            rw [if_pos hw]
            exact ⟨_, rfl⟩
  obtain ⟨e1, he1⟩ := hdep
  obtain ⟨e2, he2⟩ := hwit
  refine ⟨⟨e1, he1⟩, ?_, ⟨e2, he2⟩, ?_⟩
  · unfold runDeposit; rw [he1]
  · unfold runWithdraw; rw [he2]

/-- Witness for C5 (amended): amount 0 on both operations. -/
theorem nonpositive_amounts_rejected_witness :
    (∃ e, deposit stBal100 ownerUser
        { account_id := 1, amount := 0, description := none } draws12 3 =
      .error e) ∧
    runDeposit stBal100 ownerUser
        { account_id := 1, amount := 0, description := none } draws12 3 =
      stBal100 ∧
    (∃ e, withdraw stBal100 ownerUser
        { account_id := 1, amount := 0, description := none } draws12 4 =
      .error e) ∧
    runWithdraw stBal100 ownerUser
        { account_id := 1, amount := 0, description := none } draws12 4 =
      stBal100 :=
  nonpositive_amounts_rejected stBal100 ownerUser
    { account_id := 1, amount := 0, description := none }
    { account_id := 1, amount := 0, description := none } draws12 draws12 3 4
    (by decide) (by decide)

/-- C5 counterexample: 0.005 has more than 2 fractional digits, yet a
deposit of 0.005 into a valid account is accepted: it creates a COMPLETED
transaction for that amount instead of being rejected. -/
theorem deposit_three_fractional_digits_accepted :
    (¬ ∃ k : ℤ, ((5 : ℚ)/1000) = (k : ℚ)/100) ∧
    ∃ st2 tx, deposit stBal100 ownerUser
        { account_id := 1, amount := 5/1000, description := none } draws12 3 =
      .ok (st2, tx) ∧
      tx.status = TransactionStatus.completed ∧
      tx.amount = 5/1000 := by
  constructor
  · rintro ⟨k, hk⟩
    have h1 : (k : ℚ) * 10 = 5 := by
      field_simp at hk
      linarith
    have h2 : (k * 10 : ℤ) = 5 := by exact_mod_cast h1
    omega
  · obtain ⟨st2, tx, h, hstat, hamt, hba, htx, hbal⟩ :=
      deposit_success stBal100 ownerUser
        { account_id := 1, amount := 5/1000, description := none } draws12 3
        acct100 (by decide) (by decide) (by decide) (by norm_num) (by decide)
    exact ⟨st2, tx, h, hstat, hamt⟩

/-- Membership in the draw pool, for every draw. -/
theorem char36_mem : ∀ i : Fin 36, char36 i ∈ base36Alphabet := by decide

/-- C8: every generated reference number is the three-letter type tag
(DEP, WTH, TRF or REV for the four transaction types the handlers pass)
followed by exactly 12 characters, each drawn from the uppercase base-36
pool. -/
theorem reference_number_shape (t : String) (draws : List (Fin 36))
    (hdraws : draws.length = 12)
    (ht : t ∈ ["deposit", "withdrawal", "transfer", "reversal"]) :
    ∃ rest, generate_reference_number t draws = refHeadFor t ++ rest ∧
      rest.length = 12 ∧
      (∀ c ∈ rest, c ∈ base36Alphabet) ∧
      ((t = "deposit" ∧ refHeadFor t = "DEP".toList) ∨
       (t = "withdrawal" ∧ refHeadFor t = "WTH".toList) ∨
       (t = "transfer" ∧ refHeadFor t = "TRF".toList) ∨
       (t = "reversal" ∧ refHeadFor t = "REV".toList)) := by
  refine ⟨draws.map char36, rfl, by simp [hdraws], ?_, ?_⟩
  · intro c hc
    obtain ⟨i, _, rfl⟩ := List.mem_map.mp hc
    exact char36_mem i
  · simp only [List.mem_cons, List.mem_singleton] at ht
    rcases ht with rfl | rfl | rfl | rfl | h
    · exact Or.inl ⟨rfl, by decide⟩
    · exact Or.inr (Or.inl ⟨rfl, by decide⟩)
    · exact Or.inr (Or.inr (Or.inl ⟨rfl, by decide⟩))
    · exact Or.inr (Or.inr (Or.inr ⟨rfl, by decide⟩))
    · cases h

/-- Witness for C8: the deposit tag with a fixed draw sequence. -/
theorem reference_number_shape_witness :
    ∃ rest, generate_reference_number "deposit" draws12 =
        refHeadFor "deposit" ++ rest ∧
      rest.length = 12 ∧
      (∀ c ∈ rest, c ∈ base36Alphabet) ∧
      (("deposit" = "deposit" ∧ refHeadFor "deposit" = "DEP".toList) ∨
       ("deposit" = "withdrawal" ∧ refHeadFor "deposit" = "WTH".toList) ∨
       ("deposit" = "transfer" ∧ refHeadFor "deposit" = "TRF".toList) ∨
       ("deposit" = "reversal" ∧ refHeadFor "deposit" = "REV".toList)) :=
  reference_number_shape "deposit" draws12 (by decide) (by decide)

/-- C9 counterexample: a list request with per_page = 100 yields an
effective per_page of 10, not the 50 the clamping claim predicts. -/
theorem per_page_100_resets_to_10 :
    (list_accounts [] ownerUser 1 100).per_page = 10 ∧
    (list_accounts [] ownerUser 1 100).per_page ≠ 50 := by
  constructor <;> decide

/-- C9 (amended): the effective per_page of a list request equals the
requested per_page when it lies in 1..50 and is otherwise reset to the
default 10; the effective page is the requested page floored at 1; the
envelope carries total_count, page, per_page, total_pages and data, with
total_pages = floor((total_count + per_page - 1) / per_page). -/
theorem list_accounts_envelope (accounts : List Account) (u : User)
    (page per_page : Int) :
    (list_accounts accounts u page per_page).per_page =
      (if 1 ≤ per_page ∧ per_page ≤ 50 then per_page else 10) ∧
    (list_accounts accounts u page per_page).page =
      (if page < 1 then 1 else page) ∧
    (list_accounts accounts u page per_page).total_pages =
      Int.fdiv ((list_accounts accounts u page per_page).total_count +
        (list_accounts accounts u page per_page).per_page - 1)
        ((list_accounts accounts u page per_page).per_page) := by
  refine ⟨?_, rfl, rfl⟩
  simp only [list_accounts, validatedPerPage]
  split_ifs <;> omega

/-- C3: reversing a COMPLETED transfer of amount m from account A to
account B creates one new COMPLETED transaction with the accounts
swapped, the same type and amount, description prefixed with "Reversal:",
a REV-tagged reference, and metadata recording the original id and the
reason; it credits A by m (recording balance_after for that leg on the
reversal row), debits B by m with no sufficient-funds hypothesis on B,
and marks the original row REVERSED. -/
theorem reverse_transfer_correct (st : BankState) (u : User) (txId : Nat)
    (reason : String) (draws : List (Fin 36)) (newTxId : Nat)
    (otx : Transaction) (aidA aidB : Nat) (accA accB : Account)
    (hadmin : u.role = UserRole.admin)
    (horig : st.transactions txId = some otx)
    (hstatus : otx.status = TransactionStatus.completed)
    (hfrom : otx.from_account_id = some aidA)
    (hto : otx.to_account_id = some aidB)
    (hne : aidA ≠ aidB)
    (haccA : st.accounts aidA = some accA)
    (haccB : st.accounts aidB = some accB)
    (hamt : 0 < otx.amount)
    (hdraws : draws.length = 12)
    (hfresh : newTxId ≠ txId) :
    ∃ st4 rtx,
      reverse_transaction st u txId reason draws newTxId = .ok (st4, rtx) ∧
      rtx.from_account_id = some aidB ∧
      rtx.to_account_id = some aidA ∧
      rtx.transaction_type = otx.transaction_type ∧
      rtx.amount = otx.amount ∧
      rtx.description = "Reversal: " ++ otx.description ∧
      (∃ rest, rtx.reference_number = "REV".toList ++ rest) ∧
      rtx.status = TransactionStatus.completed ∧
      rtx.transaction_metadata = some (otx.id, reason) ∧
      rtx.balance_after = some (accA.balance + otx.amount) ∧
      (st4.accounts aidA).map Account.balance =
        some (accA.balance + otx.amount) ∧
      (st4.accounts aidB).map Account.balance =
        some (accB.balance - otx.amount) ∧
      (st4.transactions txId).map Transaction.status =
        some TransactionStatus.reversed ∧
      (st4.transactions newTxId).map Transaction.status =
        some TransactionStatus.completed := by
  have hhead : refHeadFor "reversal" = "REV".toList := by decide
  have hrev : ("REV".toList).map Char.toUpper = "REV".toList := by decide
  have hlen : ¬ ((generate_reference_number "reversal" draws).length < 6) := by
    simp [generate_reference_number, hhead, hdraws]
  unfold reverse_transaction
  rw [if_neg (by simp [hadmin]), horig]
  dsimp only
  rw [if_neg (by simp [hstatus])]
  unfold TransactionCreate.validate
  dsimp only
  rw [if_neg (not_le.mpr hamt), if_neg hlen, hfrom, hto]
  dsimp only [applyFromLeg, applyToLeg, insertTransaction,
    updateTransactionBalanceAfter, updateAccountBalance]
  rw [haccA]
  dsimp only
  rw [if_neg (fun h => hne h.symm), haccB]
  dsimp only
  refine ⟨_, _, rfl, rfl, rfl, rfl, rfl, rfl, ?_, rfl, rfl, rfl, ?_, ?_, ?_, ?_⟩
  · exact ⟨(draws.map char36).map Char.toUpper,
      by simp [generate_reference_number, hhead, hrev]⟩
  · simp [updateTransactionStatus, hne, Ne.symm hne, haccA]
  · simp [updateTransactionStatus, hne, Ne.symm hne, haccB]
  · simp [updateTransactionStatus, hfresh, Ne.symm hfresh, horig, hstatus]
  · simp [updateTransactionStatus, hfresh, Ne.symm hfresh]

/-- Witness for C3: reversing the 100.00 transfer from account 1 to
account 2 while account 2 only holds 30.00 — the debit leg is not
balance-checked. -/
theorem reverse_transfer_correct_witness :
    ∃ st4 rtx,
      reverse_transaction stReversible adminUser 5 "fraud" draws12 6 =
        .ok (st4, rtx) ∧
      rtx.from_account_id = some 2 ∧
      rtx.to_account_id = some 1 ∧
      rtx.transaction_type = txTransfer100.transaction_type ∧
      rtx.amount = txTransfer100.amount ∧
      rtx.description = "Reversal: " ++ txTransfer100.description ∧
      (∃ rest, rtx.reference_number = "REV".toList ++ rest) ∧
      rtx.status = TransactionStatus.completed ∧
      rtx.transaction_metadata = some (txTransfer100.id, "fraud") ∧
      rtx.balance_after = some (acct100.balance + txTransfer100.amount) ∧
      (st4.accounts 1).map Account.balance =
        some (acct100.balance + txTransfer100.amount) ∧
      (st4.accounts 2).map Account.balance =
        some (acct30.balance - txTransfer100.amount) ∧
      (st4.transactions 5).map Transaction.status =
        some TransactionStatus.reversed ∧
      (st4.transactions 6).map Transaction.status =
        some TransactionStatus.completed :=
  reverse_transfer_correct stReversible adminUser 5 "fraud" draws12 6
    txTransfer100 1 2 acct100 acct30 (by decide) (by decide) (by decide)
    (by decide) (by decide) (by decide) (by decide) (by decide) (by decide)
    (by decide) (by decide)

/-- The debit leg never touches the transactions table. -/
theorem applyToLeg_transactions (st : BankState) (t : Option Nat) (a : ℚ) :
    (applyToLeg st t a).transactions = st.transactions := by
  unfold applyToLeg
  split
  · split
    · rfl
    · rfl
  · rfl

/-- The credit leg keeps every transaction row present (it only sets
balance_after on the reversal row). -/
theorem applyFromLeg_transactions_isSome (st : BankState) (rtx : Transaction)
    (n : Nat) (f : Option Nat) (a : ℚ) (i : Nat)
    (h : (st.transactions i).isSome) :
    ((applyFromLeg st rtx n f a).1.transactions i).isSome := by
  unfold applyFromLeg
  split
  · split
    · dsimp only [updateAccountBalance, updateTransactionBalanceAfter]
      by_cases hi : i = n
      · subst hi; simp [h]
      · simp [hi, h]
    · exact h
  · exact h

/-- A successful reverse call leaves the original row at the reversed
status, whatever shape the original transaction had. -/
theorem reverse_ok_marks_reversed (st : BankState) (u : User) (txId : Nat)
    (reason : String) (draws : List (Fin 36)) (newTxId : Nat)
    (p : BankState × Transaction)
    (h : reverse_transaction st u txId reason draws newTxId = .ok p) :
    (p.1.transactions txId).map Transaction.status =
      some TransactionStatus.reversed := by
  unfold reverse_transaction at h
  split at h
  · exact Except.noConfusion h
  · split at h
    · exact Except.noConfusion h
    · rename_i original horig
      split at h
      · exact Except.noConfusion h
      · dsimp only at h
        split at h
        · exact Except.noConfusion h
        · rename_i td hval
          injection h with h
          subst h
          dsimp only
          have hins : ((insertTransaction st newTxId td).1.transactions txId).isSome := by
            by_cases hk : txId = newTxId <;> simp [insertTransaction, hk, horig]
          have hsome := applyFromLeg_transactions_isSome
            (insertTransaction st newTxId td).1
            (insertTransaction st newTxId td).2 newTxId
            original.from_account_id original.amount txId hins
          obtain ⟨t2, ht2⟩ := Option.isSome_iff_exists.mp hsome
          simp [updateTransactionStatus, applyToLeg_transactions, ht2]

/-- A reverse call against a transaction whose status is not COMPLETED is
rejected and nothing is persisted. -/
theorem reverse_rejected_of_not_completed (st : BankState) (u : User)
    (txId : Nat) (reason : String) (draws : List (Fin 36)) (newTxId : Nat)
    (t : Transaction)
    (hadmin : u.role = UserRole.admin)
    (ht : st.transactions txId = some t)
    (hs : t.status ≠ TransactionStatus.completed) :
    reverse_transaction st u txId reason draws newTxId =
      .error ApiError.notCompleted := by
  unfold reverse_transaction
  rw [if_neg (by simp [hadmin]), ht]
  dsimp only
  rw [if_pos hs]

/-- C4: the reverse operation is single-shot — a successful reversal
leaves the original transaction at status REVERSED, so a second reverse
call for the same transaction (by any admin) is rejected with the
only-completed-transactions error and changes no balances: the state
persisted by the second call is exactly the state after the first. -/
theorem reversal_single_shot (st : BankState) (u1 u2 : User) (txId : Nat)
    (r1 r2 : String) (d1 d2 : List (Fin 36)) (n1 n2 : Nat)
    (hsucc : exceptIsOk (reverse_transaction st u1 txId r1 d1 n1) = true)
    (hadmin2 : u2.role = UserRole.admin) :
    ((runReverse st u1 txId r1 d1 n1).transactions txId).map
        Transaction.status = some TransactionStatus.reversed ∧
    reverse_transaction (runReverse st u1 txId r1 d1 n1) u2 txId r2 d2 n2 =
      .error ApiError.notCompleted ∧
    runReverse (runReverse st u1 txId r1 d1 n1) u2 txId r2 d2 n2 =
      runReverse st u1 txId r1 d1 n1 := by
  obtain ⟨p, hp⟩ : ∃ p, reverse_transaction st u1 txId r1 d1 n1 = .ok p := by
    cases hE : reverse_transaction st u1 txId r1 d1 n1 with
    | ok q => exact ⟨q, rfl⟩
    | error e => rw [hE] at hsucc; simp [exceptIsOk] at hsucc
  have hrun : runReverse st u1 txId r1 d1 n1 = p.1 := by
    unfold runReverse; rw [hp]
  have h1 := reverse_ok_marks_reversed st u1 txId r1 d1 n1 p hp
  obtain ⟨t, ht, hts⟩ : ∃ t, p.1.transactions txId = some t ∧
      t.status = TransactionStatus.reversed := by
    cases hL : p.1.transactions txId with
    | none => rw [hL] at h1; simp at h1
    | some t =>
      rw [hL] at h1
      simp at h1
      exact ⟨t, rfl, h1⟩
  have h2 := reverse_rejected_of_not_completed p.1 u2 txId r2 d2 n2 t
    hadmin2 ht (by simp [hts])
  rw [hrun]
  refine ⟨by rw [ht]; simp [hts], h2, ?_⟩
  unfold runReverse
  rw [h2]

/-- Witness for C4: the first reversal of the stReversible transfer
succeeds; the theorem then yields the rejection of the second. -/
theorem reversal_single_shot_witness :
    ((runReverse stReversible adminUser 5 "dup" draws12 6).transactions 5).map
        Transaction.status = some TransactionStatus.reversed ∧
    reverse_transaction (runReverse stReversible adminUser 5 "dup" draws12 6)
        adminUser 5 "again" draws12 8 = .error ApiError.notCompleted ∧
    runReverse (runReverse stReversible adminUser 5 "dup" draws12 6)
        adminUser 5 "again" draws12 8 =
      runReverse stReversible adminUser 5 "dup" draws12 6 :=
  reversal_single_shot stReversible adminUser adminUser 5 "dup" "again"
    draws12 draws12 6 8 (by decide) (by decide)

/-- C6: under the one-row-per-email invariant, issuing a new OTP for an
email (as both send_otp and request_password_reset do: delete the prior
row, then insert the fresh code) preserves the invariant, and the old
code is no longer accepted by any confirmation endpoint once the new code
differs from it. -/
theorem otp_single_liveness (store : List OtpRec) (email new_code : String)
    (exp newId now : Nat) (old : OtpRec)
    (hinv : atMostOneOtpPerEmail store)
    (hold : otp_get_by store email = some old)
    (hne : new_code ≠ old.otp_code) :
    atMostOneOtpPerEmail (issue_otp store email new_code exp newId) ∧
    confirm_otp (issue_otp store email new_code exp newId) email
        old.otp_code now ≠ OtpConfirmResult.confirmed := by
  have hmem : old ∈ store := List.mem_of_find?_eq_some hold
  have hemail : old.email = email := by
    have := List.find?_some hold
    simpa using this
  have hdel : ∀ x ∈ otp_delete store old.id, x.email ≠ email := by
    intro x hx hxe
    have hxs : x ∈ store := List.mem_of_mem_filter hx
    have hxid : x.id ≠ old.id := by
      have := List.of_mem_filter hx
      simpa using this
    have hxf : x ∈ store.filter (fun o => o.email == email) :=
      List.mem_filter.mpr ⟨hxs, by simp [hxe]⟩
    have holdf : old ∈ store.filter (fun o => o.email == email) :=
      List.mem_filter.mpr ⟨hmem, by simp [hemail]⟩
    exact hxid (congrArg OtpRec.id
      (eq_of_mem_mem_length_le_one hxf holdf (hinv email)))
  have hfind : otp_get_by (issue_otp store email new_code exp newId) email =
      some { id := newId, email := email, otp_code := new_code,
             expires_on := exp, is_expired := false } := by
    unfold issue_otp
    rw [hold]
    dsimp only
    unfold otp_get_by
    rw [List.find?_append]
    have hnone : (otp_delete store old.id).find? (fun o => o.email == email) =
        none := by
      rw [List.find?_eq_none]
      intro x hx
      simp [hdel x hx]
    rw [hnone]
    simp
  constructor
  · intro e
    unfold issue_otp
    rw [hold]
    dsimp only
    rw [List.filter_append]
    by_cases he : e = email
    · subst he
      have hdelf : (otp_delete store old.id).filter (fun o => o.email == e) =
          [] := by
        rw [List.filter_eq_nil_iff]
        intro x hx
        simp [hdel x hx]
      rw [hdelf]
      simp
    · have h1 : ((otp_delete store old.id).filter
          (fun o => o.email == e)).length ≤
          (store.filter (fun o => o.email == e)).length :=
        List.Sublist.length_le
          (List.Sublist.filter _ (List.filter_sublist store))
      have h2 := hinv e
      have h3 : ∀ r : OtpRec, r.email = email →
          (([r] : List OtpRec).filter (fun o => o.email == e)).length = 0 := by
        intro r hr
        have hre : (r.email == e) = false := by
          simp [hr]
          exact fun h => he h.symm
        simp [hre]
      rw [List.length_append, h3 _ rfl]
      omega
  · unfold confirm_otp
    rw [hfind]
    dsimp only
    by_cases hexp : exp < now
    · rw [if_pos (Or.inr hexp)]
      simp
    · rw [if_neg (by simp [hexp]), if_pos hne]
      simp

/-- Witness for C6: one live code for the email, superseded by a second
code; the first code is no longer accepted. -/
theorem otp_single_liveness_witness :
    atMostOneOtpPerEmail (issue_otp [otpRec1] "a@x.com" "222222" 200 2) ∧
    confirm_otp (issue_otp [otpRec1] "a@x.com" "222222" 200 2) "a@x.com"
        otpRec1.otp_code 150 ≠ OtpConfirmResult.confirmed :=
  otp_single_liveness [otpRec1] "a@x.com" "222222" 200 2 150 otpRec1
    (fun e => by simpa using List.length_filter_le (fun o => o.email == e) [otpRec1])
    (by decide) (by decide)

/-- C7 (evaluating the code at the failing input of the claim): a freshly
registered user is created with is_active = true, and logging in with the
correct password immediately afterwards — before any OTP confirmation —
returns an access token rather than the 400 inactive-account rejection. -/
theorem registered_user_logs_in_before_confirmation
    (hash : String → String) (verify : String → String → Bool)
    (db : UsersDb) (newId : Nat) (email password : String)
    (hverify : verify password (hash password) = true)
    (hlowercase : pyLower email = email)
    (hfresh : get_by_email db email = none) :
    (user_create hash db newId email password).2.is_active = true ∧
    login verify (user_create hash db newId email password).1 email password =
      LoginResult.token newId := by
  have hu : get_by_email (user_create hash db newId email password).1 email =
      some { id := newId, email := email, hashed_password := hash password,
             role := UserRole.customer, is_active := true } := by
    unfold get_by_email user_create
    unfold get_by_email at hfresh
    dsimp only
    rw [List.find?_append, hfresh]
    simp
  refine ⟨rfl, ?_⟩
  unfold login
  rw [hu]
  dsimp only
  unfold authenticate
  rw [hlowercase, hu]
  dsimp only
  rw [if_pos hverify]
  simp

/-- Witness for C7: a concrete registration followed by a login. -/
theorem registered_user_logs_in_before_confirmation_witness :
    (user_create (fun s => s) emptyUsersDb 4 "bob@x.com" "pw1234").2.is_active =
      true ∧
    login (fun a b => a == b)
        (user_create (fun s => s) emptyUsersDb 4 "bob@x.com" "pw1234").1
        "bob@x.com" "pw1234" = LoginResult.token 4 :=
  registered_user_logs_in_before_confirmation (fun s => s) (fun a b => a == b)
    emptyUsersDb 4 "bob@x.com" "pw1234" (by decide) (by decide) (by decide)

end NylaBank
